import Mathlib

/-!
Verification of the career-page-crawler core against its specification.

The development shallowly embeds the Python modules
`crawler/anti_throttle/circuit.py`, `crawler/anti_throttle/delays.py`,
`crawler/generic/fetcher.py`, `crawler/generic/extractor.py`,
`crawler/generic/cache.py` and `crawler/db/queries.py`.

Modelling conventions:
- machine floats used as monotonic timestamps and backoff factors become `Rat`;
- Python dicts keyed by domain become functions `String -> _` updated pointwise;
- external collaborators (the HTTP transport, Playwright, BeautifulSoup / CSS
  selection, the LLM client, the SQL store) enter as explicit inputs: the
  transport as an outcome value, the parsed page as a record of query results,
  the LLM as a function argument, the store as an in-memory list of rows;
- `hashlib.sha256` / `hashlib.md5` are implemented bit-for-bit below
  (FIPS 180-4 and RFC 1321) over UTF-8 byte lists.
-/

namespace Crawler

/-! ### Bytes, 32-bit words and hex -/

/-- Word size modulus for 32-bit arithmetic. -/
def w32 : Nat := 4294967296

/-- Addition modulo 2^32. -/
def add32 (a b : Nat) : Nat := (a + b) % w32

/-- Left rotation of a 32-bit word. -/
def rotl32 (n x : Nat) : Nat := ((x <<< n) ||| (x >>> (32 - n))) % w32

/-- Right rotation of a 32-bit word. -/
def rotr32 (n x : Nat) : Nat := ((x >>> n) ||| (x <<< (32 - n))) % w32

/-- Bitwise complement within 32 bits. -/
def not32 (x : Nat) : Nat := x ^^^ 4294967295

/-- UTF-8 encoding of a single character, as code unit values. -/
def utf8EncodeChar (c : Char) : List Nat :=
  let n := c.toNat
  if n < 128 then [n]
  else if n < 2048 then [192 + n / 64, 128 + n % 64]
  else if n < 65536 then [224 + n / 4096, 128 + (n / 64) % 64, 128 + n % 64]
  else [240 + n / 262144, 128 + (n / 4096) % 64, 128 + (n / 64) % 64, 128 + n % 64]

/-- UTF-8 bytes of a string, the Lean counterpart of Python `str.encode()`. -/
def strBytes (s : String) : List Nat := (s.data.map utf8EncodeChar).flatten

/-- Lower-case hex digit for a value below 16. -/
def hexDigit (n : Nat) : Char :=
  if n < 10 then Char.ofNat (48 + n) else Char.ofNat (87 + n)

/-- Big-endian 8-hex-digit rendering of a 32-bit word. -/
def toHex32 (x : Nat) : String :=
  String.mk [hexDigit (x / 268435456 % 16), hexDigit (x / 16777216 % 16),
    hexDigit (x / 1048576 % 16), hexDigit (x / 65536 % 16),
    hexDigit (x / 4096 % 16), hexDigit (x / 256 % 16),
    hexDigit (x / 16 % 16), hexDigit (x % 16)]

/-- Two-hex-digit rendering of a byte. -/
def byteHex (b : Nat) : String := String.mk [hexDigit (b / 16 % 16), hexDigit (b % 16)]

/-- Little-endian (byte order) hex rendering of a 32-bit word, as used by MD5 digests. -/
def toHexLE32 (x : Nat) : String :=
  byteHex (x % 256) ++ byteHex (x / 256 % 256) ++ byteHex (x / 65536 % 256) ++
    byteHex (x / 16777216 % 256)

/-- The 8 bytes of a 64-bit length, big-endian. -/
def len64BE (n : Nat) : List Nat :=
  [n / 72057594037927936 % 256, n / 281474976710656 % 256, n / 1099511627776 % 256,
   n / 4294967296 % 256, n / 16777216 % 256, n / 65536 % 256, n / 256 % 256, n % 256]

/-- The 8 bytes of a 64-bit length, little-endian. -/
def len64LE (n : Nat) : List Nat :=
  [n % 256, n / 256 % 256, n / 65536 % 256, n / 16777216 % 256,
   n / 4294967296 % 256, n / 1099511627776 % 256, n / 281474976710656 % 256,
   n / 72057594037927936 % 256]

/-- Split a byte list into 64-byte blocks; the fuel is an upper bound on the block count. -/
def splitBlocks : Nat → List Nat → List (List Nat)
  | 0, _ => []
  | _, [] => []
  | fuel + 1, bs => bs.take 64 :: splitBlocks fuel (bs.drop 64)

/-- Pack bytes into 32-bit words, big-endian. -/
def bytesToWordsBE : List Nat → List Nat
  | b0 :: b1 :: b2 :: b3 :: rest =>
      (b0 * 16777216 + b1 * 65536 + b2 * 256 + b3) :: bytesToWordsBE rest
  | _ => []

/-- Pack bytes into 32-bit words, little-endian. -/
def bytesToWordsLE : List Nat → List Nat
  | b0 :: b1 :: b2 :: b3 :: rest =>
      (b0 + b1 * 256 + b2 * 65536 + b3 * 16777216) :: bytesToWordsLE rest
  | _ => []

/-! ### SHA-256 (FIPS 180-4), backing `hashlib.sha256(...).hexdigest()` -/

/-- SHA-256 round constants (decimal renderings of the FIPS 180-4 table). -/
def sha256K : List Nat :=
  [1116352408, 1899447441, 3049323471, 3921009573, 961987163, 1508970993, 2453635748, 2870763221,
   3624381080, 310598401, 607225278, 1426881987, 1925078388, 2162078206, 2614888103, 3248222580,
   3835390401, 4022224774, 264347078, 604807628, 770255983, 1249150122, 1555081692, 1996064986,
   2554220882, 2821834349, 2952996808, 3210313671, 3336571891, 3584528711, 113926993, 338241895,
   666307205, 773529912, 1294757372, 1396182291, 1695183700, 1986661051, 2177026350, 2456956037,
   2730485921, 2820302411, 3259730800, 3345764771, 3516065817, 3600352804, 4094571909, 275423344,
   430227734, 506948616, 659060556, 883997877, 958139571, 1322822218, 1537002063, 1747873779,
   1955562222, 2024104815, 2227730452, 2361852424, 2428436474, 2756734187, 3204031479, 3329325298]

/-- SHA-256 register file. -/
structure Sha256Regs where
  a : Nat
  b : Nat
  c : Nat
  d : Nat
  e : Nat
  f : Nat
  g : Nat
  h : Nat

/-- Merkle–Damgård padding for SHA-256: 0x80, zeros, 64-bit big-endian bit length. -/
def sha256Pad (msg : List Nat) : List Nat :=
  let L := msg.length
  let k := (64 - (L + 9) % 64) % 64
  msg ++ [128] ++ List.replicate k 0 ++ len64BE (8 * L)

/-- Message-schedule extension: grows the 16 block words to 64. -/
def sha256Schedule : Nat → List Nat → List Nat
  | 0, ws => ws
  | fuel + 1, ws =>
      let i := ws.length
      let w15 := ws.getD (i - 15) 0
      let w2 := ws.getD (i - 2) 0
      let w16 := ws.getD (i - 16) 0
      let w7 := ws.getD (i - 7) 0
      let s0 := rotr32 7 w15 ^^^ rotr32 18 w15 ^^^ (w15 >>> 3)
      let s1 := rotr32 17 w2 ^^^ rotr32 19 w2 ^^^ (w2 >>> 10)
      sha256Schedule fuel (ws ++ [add32 (add32 w16 s0) (add32 w7 s1)])

/-- One SHA-256 round, consuming a (round constant, schedule word) pair. -/
def sha256Round (r : Sha256Regs) (kw : Nat × Nat) : Sha256Regs :=
  let S1 := rotr32 6 r.e ^^^ rotr32 11 r.e ^^^ rotr32 25 r.e
  let ch := (r.e &&& r.f) ^^^ (not32 r.e &&& r.g)
  let t1 := add32 r.h (add32 S1 (add32 ch (add32 kw.1 kw.2)))
  let S0 := rotr32 2 r.a ^^^ rotr32 13 r.a ^^^ rotr32 22 r.a
  let maj := (r.a &&& r.b) ^^^ (r.a &&& r.c) ^^^ (r.b &&& r.c)
  let t2 := add32 S0 maj
  ⟨add32 t1 t2, r.a, r.b, r.c, add32 r.d t1, r.e, r.f, r.g⟩

/-- Compress one 64-byte block into the running state. -/
def sha256Block (st : Sha256Regs) (block : List Nat) : Sha256Regs :=
  let ws := sha256Schedule 48 (bytesToWordsBE block)
  let r := (sha256K.zip ws).foldl sha256Round st
  ⟨add32 st.a r.a, add32 st.b r.b, add32 st.c r.c, add32 st.d r.d,
   add32 st.e r.e, add32 st.f r.f, add32 st.g r.g, add32 st.h r.h⟩

/-- SHA-256 of a byte list, as a 64-character lower-case hex digest. -/
def sha256Hex (msg : List Nat) : String :=
  let padded := sha256Pad msg
  let blocks := splitBlocks padded.length padded
  let st := blocks.foldl sha256Block
    ⟨0x6a09e667, 0xbb67ae85, 0x3c6ef372, 0xa54ff53a, 0x510e527f, 0x9b05688c, 0x1f83d9ab, 0x5be0cd19⟩
  toHex32 st.a ++ toHex32 st.b ++ toHex32 st.c ++ toHex32 st.d ++
    toHex32 st.e ++ toHex32 st.f ++ toHex32 st.g ++ toHex32 st.h

/-! ### MD5 (RFC 1321), backing `hashlib.md5(...).hexdigest()` -/

/-- MD5 sine-derived additive constants. -/
def md5T : List Nat :=
  [0xd76aa478, 0xe8c7b756, 0x242070db, 0xc1bdceee, 0xf57c0faf, 0x4787c62a, 0xa8304613, 0xfd469501,
   0x698098d8, 0x8b44f7af, 0xffff5bb1, 0x895cd7be, 0x6b901122, 0xfd987193, 0xa679438e, 0x49b40821,
   0xf61e2562, 0xc040b340, 0x265e5a51, 0xe9b6c7aa, 0xd62f105d, 0x02441453, 0xd8a1e681, 0xe7d3fbc8,
   0x21e1cde6, 0xc33707d6, 0xf4d50d87, 0x455a14ed, 0xa9e3e905, 0xfcefa3f8, 0x676f02d9, 0x8d2a4c8a,
   0xfffa3942, 0x8771f681, 0x6d9d6122, 0xfde5380c, 0xa4beea44, 0x4bdecfa9, 0xf6bb4b60, 0xbebfbc70,
   0x289b7ec6, 0xeaa127fa, 0xd4ef3085, 0x04881d05, 0xd9d4d039, 0xe6db99e5, 0x1fa27cf8, 0xc4ac5665,
   0xf4292244, 0x432aff97, 0xab9423a7, 0xfc93a039, 0x655b59c3, 0x8f0ccc92, 0xffeff47d, 0x85845dd1,
   0x6fa87e4f, 0xfe2ce6e0, 0xa3014314, 0x4e0811a1, 0xf7537e82, 0xbd3af235, 0x2ad7d2bb, 0xeb86d391]

/-- MD5 per-round left-rotation amounts. -/
def md5S : List Nat :=
  [7, 12, 17, 22, 7, 12, 17, 22, 7, 12, 17, 22, 7, 12, 17, 22,
   5, 9, 14, 20, 5, 9, 14, 20, 5, 9, 14, 20, 5, 9, 14, 20,
   4, 11, 16, 23, 4, 11, 16, 23, 4, 11, 16, 23, 4, 11, 16, 23,
   6, 10, 15, 21, 6, 10, 15, 21, 6, 10, 15, 21, 6, 10, 15, 21]

/-- MD5 register file. -/
structure Md5Regs where
  a : Nat
  b : Nat
  c : Nat
  d : Nat

/-- Merkle–Damgård padding for MD5: 0x80, zeros, 64-bit little-endian bit length. -/
def md5Pad (msg : List Nat) : List Nat :=
  let L := msg.length
  let k := (64 - (L + 9) % 64) % 64
  msg ++ [128] ++ List.replicate k 0 ++ len64LE (8 * L)

/-- One MD5 step, indexed by the step number below 64. -/
def md5Step (ws : List Nat) (r : Md5Regs) (i : Nat) : Md5Regs :=
  let fg : Nat × Nat :=
    if i < 16 then ((r.b &&& r.c) ||| (not32 r.b &&& r.d), i)
    else if i < 32 then ((r.d &&& r.b) ||| (not32 r.d &&& r.c), (5 * i + 1) % 16)
    else if i < 48 then (r.b ^^^ r.c ^^^ r.d, (3 * i + 5) % 16)
    else (r.c ^^^ (r.b ||| not32 r.d), (7 * i) % 16)
  let mixed := add32 fg.1 (add32 r.a (add32 (md5T.getD i 0) (ws.getD fg.2 0)))
  ⟨r.d, add32 r.b (rotl32 (md5S.getD i 0) mixed), r.b, r.c⟩

/-- Compress one 64-byte block into the running MD5 state. -/
def md5Block (st : Md5Regs) (block : List Nat) : Md5Regs :=
  let ws := bytesToWordsLE block
  let r := (List.range 64).foldl (md5Step ws) st
  ⟨add32 st.a r.a, add32 st.b r.b, add32 st.c r.c, add32 st.d r.d⟩

/-- MD5 of a byte list, as a 32-character lower-case hex digest. -/
def md5Hex (msg : List Nat) : String :=
  let padded := md5Pad msg
  let blocks := splitBlocks padded.length padded
  let st := blocks.foldl md5Block ⟨0x67452301, 0xefcdab89, 0x98badcfe, 0x10325476⟩
  toHexLE32 st.a ++ toHexLE32 st.b ++ toHexLE32 st.c ++ toHexLE32 st.d

/-! ### URL parsing

Models the parts of `urllib.parse.urlparse` the crawler uses: the `netloc`
(host) and `scheme` components of URLs of the shape `scheme://host[/path...]`.
A URL without a `://` separator has empty scheme and netloc, as in Python. -/

/-- Python `str.startswith`, structurally over the character list. -/
def strStartsWith (s pre : String) : Bool := pre.data.isPrefixOf s.data

/-- Split a character list at the first occurrence of `pat`, returning the
characters before and after it, or `none` when `pat` does not occur. -/
def breakOnAux (pat : List Char) : List Char → Option (List Char × List Char)
  | [] => none
  | c :: rest =>
      if pat.isPrefixOf (c :: rest) then some ([], (c :: rest).drop pat.length)
      else
        match breakOnAux pat rest with
        | some (pre, post) => some (c :: pre, post)
        | none => none

/-- The authority (host) component of a URL, Python `urlparse(url).netloc`:
the part after the first `://`, up to the next `/`, `?` or `#`. A URL
without `://` has an empty netloc. -/
def urlNetloc (url : String) : String :=
  match breakOnAux "://".data url.data with
  | some (_, post) =>
      String.mk (post.takeWhile fun c => c != '/' && c != '?' && c != '#')
  | none => ""

/-- The scheme component of a URL, Python `urlparse(url).scheme`. -/
def urlScheme (url : String) : String :=
  match breakOnAux "://".data url.data with
  | some (pre, _) => String.mk pre
  | none => ""

/-- Pointwise update of a map modelled as a function, mirroring `dict[key] = value`. -/
def updateMap {α : Type} (f : String → α) (d : String) (v : α) : String → α :=
  fun x => if x = d then v else f x

/-! ### CircuitBreaker — `crawler/anti_throttle/circuit.py`

Per-domain circuit breaker. `_failure_counts` is a `defaultdict(int)` and
`_open_since` a plain dict, modelled as total functions with defaults `0` and
`none`. Calls to `time.monotonic()` become an explicit `now : Rat` argument;
all reads within one method call observe the same instant. -/

structure CircuitBreaker where
  threshold : Nat
  cooldown : Rat
  failure_counts : String → Nat
  open_since : String → Option Rat

/-- `CircuitBreaker.__init__`. -/
def CircuitBreaker.init (threshold : Nat) (cooldown : Rat) : CircuitBreaker :=
  ⟨threshold, cooldown, fun _ => 0, fun _ => none⟩

/-- `CircuitBreaker.is_open`: returns the boolean answer together with the
possibly-updated breaker (the half-open transition mutates state). -/
def CircuitBreaker.is_open (cb : CircuitBreaker) (now : Rat) (domain : String) :
    Bool × CircuitBreaker :=
  match cb.open_since domain with
  | none => (false, cb)
  | some t =>
      if cb.cooldown ≤ now - t then
        (false, { cb with open_since := updateMap cb.open_since domain none,
                          failure_counts := updateMap cb.failure_counts domain 0 })
      else (true, cb)

/-- `CircuitBreaker.record_success`. -/
def CircuitBreaker.record_success (cb : CircuitBreaker) (domain : String) : CircuitBreaker :=
  { cb with failure_counts := updateMap cb.failure_counts domain 0,
            open_since := updateMap cb.open_since domain none }

/-- `CircuitBreaker.record_failure`. -/
def CircuitBreaker.record_failure (cb : CircuitBreaker) (now : Rat) (domain : String) :
    CircuitBreaker :=
  let fc := cb.failure_counts domain + 1
  let cb1 := { cb with failure_counts := updateMap cb.failure_counts domain fc }
  if cb.threshold ≤ fc then
    { cb1 with open_since := updateMap cb1.open_since domain (some now) }
  else cb1

/-- `CircuitBreaker.get_status`. -/
def CircuitBreaker.get_status (cb : CircuitBreaker) (now : Rat) (domain : String) : String :=
  match cb.open_since domain with
  | some t => if cb.cooldown ≤ now - t then "half-open" else "open"
  | none => "closed"

/-! ### AdaptiveDelay — `crawler/anti_throttle/delays.py`

The jittered sleep inside `wait` is real time and outside the model; `wait`
is modelled by its state effect, setting `_last_request[domain]` to the
monotonic instant observed after the suspension. -/

structure AdaptiveDelay where
  min_delay : Rat
  max_delay : Rat
  last_request : String → Rat
  backoff_factor : String → Rat

/-- `AdaptiveDelay.__init__`. -/
def AdaptiveDelay.init (min_delay max_delay : Rat) : AdaptiveDelay :=
  ⟨min_delay, max_delay, fun _ => 0, fun _ => 1⟩

/-- `AdaptiveDelay.wait`, by its state effect. -/
def AdaptiveDelay.wait (ad : AdaptiveDelay) (now : Rat) (domain : String) : AdaptiveDelay :=
  { ad with last_request := updateMap ad.last_request domain now }

/-- `AdaptiveDelay.report_success`. -/
def AdaptiveDelay.report_success (ad : AdaptiveDelay) (domain : String) : AdaptiveDelay :=
  { ad with backoff_factor :=
      updateMap ad.backoff_factor domain (max 1 (ad.backoff_factor domain * 0.5)) }

/-- `AdaptiveDelay.report_error`. -/
def AdaptiveDelay.report_error (ad : AdaptiveDelay) (domain : String)
    (status_code : Option Nat) : AdaptiveDelay :=
  if status_code = some 429 ∨ status_code = some 503 then
    { ad with backoff_factor :=
        updateMap ad.backoff_factor domain (min 10 (ad.backoff_factor domain * 2)) }
  else
    { ad with backoff_factor :=
        updateMap ad.backoff_factor domain (min 5 (ad.backoff_factor domain * 1.5)) }

/-! ### StealthFetcher — `crawler/generic/fetcher.py`

The HTTP transport (`httpx`) and the headless browser (Playwright) are
external collaborators; one `fetch` call observes a single transport
outcome, passed in as a value. Besides the result and the new state, the
model emits the ordered list of governor notifications the call performs,
so that claims about which governor is notified, and how often, are
statable. -/

/-- A single governor notification performed by the fetch path. -/
inductive GovEvent where
  | delayReportSuccess (domain : String)
  | delayReportError (domain : String) (status : Option Nat)
  | circuitRecordSuccess (domain : String)
  | circuitRecordFailure (domain : String)
  deriving DecidableEq, Repr

/-- The fetcher state: the two governors it owns. The proxy pool and the
fingerprint randomness do not influence control flow and are omitted. -/
structure StealthFetcher where
  delay : AdaptiveDelay
  circuit : CircuitBreaker

/-- `StealthFetcher._get_domain`. -/
def StealthFetcher.get_domain (url : String) : String := urlNetloc url

/-- What the `httpx` transport did inside the `try` block of `fetch_static`. -/
inductive StaticOutcome where
  | response (status : Nat) (text : String)
  | exc
  deriving DecidableEq, Repr

/-- What the Playwright transport did inside the `try` block of `fetch_js`:
`page.goto` may return a response, may return `None`, or the block raises. -/
inductive JsOutcome where
  | response (status : Nat) (html : String)
  | noResponse (html : String)
  | exc
  deriving DecidableEq, Repr

/-- `StealthFetcher.fetch_static`. -/
def StealthFetcher.fetch_static (st : StealthFetcher) (now : Rat) (url : String)
    (outcome : StaticOutcome) : Option String × StealthFetcher × List GovEvent :=
  let domain := StealthFetcher.get_domain url
  let opened := st.circuit.is_open now domain
  if opened.1 then (none, { st with circuit := opened.2 }, [])
  else
    let st1 : StealthFetcher := { delay := st.delay.wait now domain, circuit := opened.2 }
    match outcome with
    | .response status text =>
        if status = 429 ∨ status = 503 then
          (none,
           { delay := st1.delay.report_error domain (some status),
             circuit := st1.circuit.record_failure now domain },
           [.delayReportError domain (some status), .circuitRecordFailure domain])
        else if 400 ≤ status then
          (none, { st1 with circuit := st1.circuit.record_failure now domain },
           [.circuitRecordFailure domain])
        else
          (some text,
           { delay := st1.delay.report_success domain,
             circuit := st1.circuit.record_success domain },
           [.delayReportSuccess domain, .circuitRecordSuccess domain])
    | .exc =>
        (none,
         { delay := st1.delay.report_error domain none,
           circuit := st1.circuit.record_failure now domain },
         [.circuitRecordFailure domain, .delayReportError domain none])

/-- `StealthFetcher.fetch_js`. Statuses outside `{429, 503}` — including
4xx and 5xx — fall through to the success path of the source. -/
def StealthFetcher.fetch_js (st : StealthFetcher) (now : Rat) (url : String)
    (outcome : JsOutcome) : Option String × StealthFetcher × List GovEvent :=
  let domain := StealthFetcher.get_domain url
  let opened := st.circuit.is_open now domain
  if opened.1 then (none, { st with circuit := opened.2 }, [])
  else
    let st1 : StealthFetcher := { delay := st.delay.wait now domain, circuit := opened.2 }
    match outcome with
    | .response status html =>
        if status = 429 ∨ status = 503 then
          (none,
           { delay := st1.delay.report_error domain (some status),
             circuit := st1.circuit.record_failure now domain },
           [.delayReportError domain (some status), .circuitRecordFailure domain])
        else
          (some html,
           { delay := st1.delay.report_success domain,
             circuit := st1.circuit.record_success domain },
           [.delayReportSuccess domain, .circuitRecordSuccess domain])
    | .noResponse html =>
        (some html,
         { delay := st1.delay.report_success domain,
           circuit := st1.circuit.record_success domain },
         [.delayReportSuccess domain, .circuitRecordSuccess domain])
    | .exc =>
        (none,
         { delay := st1.delay.report_error domain none,
           circuit := st1.circuit.record_failure now domain },
         [.circuitRecordFailure domain, .delayReportError domain none])

/-- A transport outcome tagged with the render mode chosen by `js_render`. -/
inductive FetchOutcome where
  | static (o : StaticOutcome)
  | js (o : JsOutcome)
  deriving DecidableEq, Repr

/-- `StealthFetcher.fetch`: dispatches on the render mode. -/
def StealthFetcher.fetch (st : StealthFetcher) (now : Rat) (url : String) :
    FetchOutcome → Option String × StealthFetcher × List GovEvent
  | .static o => st.fetch_static now url o
  | .js o => st.fetch_js now url o

/-! ### Parsed pages — the BeautifulSoup boundary

BeautifulSoup and the soupsieve CSS engine are external libraries; the
crawler code only consumes their answers. A parsed page is therefore
modelled by the queries the code performs on it: the document-order list of
tags (for `find_all(True, limit=200)`) and the CSS `select` map. A `select`
result of `none` models the selector raising, which the source catches. -/

/-- One tag as seen by `find_all`: its name, its multi-valued `class`
attribute, and its text content (carried so that text-invariance claims are
substantive; the signature never reads it). -/
structure Element where
  name : String
  classes : List String
  text : String
  deriving DecidableEq, Repr

/-- An element answered by `select_one` within a card: the code reads its
stripped text and its attributes. `textStripped` is the value of
`get_text(strip=True)`. -/
structure Elem where
  textStripped : String
  attrs : List (String × String)
  deriving DecidableEq, Repr

/-- bs4 `tag.get(key, default)` for string-valued attributes. -/
def Elem.get (e : Elem) (k default : String) : String :=
  match e.attrs.lookup k with
  | some v => v
  | none => default

/-- A job card: the `select_one` query map, `none` covering both no match
and a selector error. -/
structure Card where
  selectOne : String → Option Elem

/-- A parsed HTML document. -/
structure Dom where
  elements : List Element
  select : String → Option (List Card)

/-! ### compute_page_signature — `crawler/generic/extractor.py` -/

/-- `compute_page_signature`: first 200 tags, each rendered as
`name:sorted-classes-joined-by-dot`, joined by `|`, MD5 hex digest of the
UTF-8 bytes. Python `sorted` on strings is modelled by `insertionSort` under
the lexicographic order. -/
def compute_page_signature (dom : Dom) : String :=
  let structure_parts := (dom.elements.take 200).map fun tag =>
    tag.name ++ ":" ++ String.intercalate "." (List.insertionSort (· ≤ ·) tag.classes)
  md5Hex (strBytes (String.intercalate "|" structure_parts))

/-! ### extract_with_selectors — `crawler/generic/extractor.py` -/

/-- A selector plan, Python dict with the six role keys; a missing key is
`none`. -/
structure Selectors where
  job_list_selector : Option String
  title_selector : Option String
  company_selector : Option String
  location_selector : Option String
  url_selector : Option String
  salary_selector : Option String
  deriving DecidableEq, Repr

/-- A normalized job dict as produced by the extraction layer. Keys the
Python dict does not carry are `none`. -/
structure Job where
  title : String
  company : String
  location : Option String
  salary_range : Option String
  description : String
  source_url : String
  posted_date : Option String
  search_keyword : Option String
  source_site : Option String
  deriving DecidableEq, Repr

/-- `_safe_select_one`: falsy selectors short-circuit to `None`; selector
errors are already folded into the card oracle. -/
def safe_select_one (card : Card) (selector : Option String) : Option Elem :=
  match selector with
  | none => none
  | some s => if s = "" then none else card.selectOne s

/-- The body of the per-card loop of `extract_with_selectors`: `none` when
the card is skipped for lack of a title. -/
def extractCard (selectors : Selectors) (domain base_url : String) (card : Card) : Option Job :=
  let title_el := safe_select_one card selectors.title_selector
  let company_el := safe_select_one card selectors.company_selector
  let location_el := safe_select_one card selectors.location_selector
  let url_el := safe_select_one card selectors.url_selector
  let salary_el := safe_select_one card selectors.salary_selector
  let title := match title_el with
    | some e => e.textStripped
    | none => ""
  if title = "" then none
  else
    let company := match company_el with
      | some e => e.textStripped
      | none => domain
    let location := location_el.map Elem.textStripped
    let salary := salary_el.map Elem.textStripped
    let job_url := match url_el with
      | none => ""
      | some e =>
          let href := e.get "href" ""
          if strStartsWith href "http" then href
          else if strStartsWith href "/" then
            urlScheme base_url ++ "://" ++ urlNetloc base_url ++ href
          else ""
    some { title := title, company := company, location := location,
           salary_range := salary, description := "", source_url := job_url,
           posted_date := none, search_keyword := none, source_site := none }

/-- `extract_with_selectors`. -/
def extract_with_selectors (dom : Dom) (selectors : Selectors) (base_url : String) :
    List Job :=
  let domain := urlNetloc base_url
  let job_list_sel := selectors.job_list_selector.getD ""
  if job_list_sel = "" then []
  else
    match dom.select job_list_sel with
    | none => []
    | some job_cards =>
        if job_cards.isEmpty then []
        else job_cards.filterMap (extractCard selectors domain base_url)

/-! ### Selector cache — `crawler/db/queries.py` and `crawler/generic/cache.py`

The `llm_pattern_cache` table, unique on `(domain, page_signature)`, becomes
an in-memory list of rows; the SQL insert-on-conflict-update becomes a keyed
replace. The LLM extractor is an injected capability: a function from the
parsed page, page URL and keyword to `(jobs, selectors?)`, standing for
`LLMExtractor.extract_jobs_from_html`. -/

/-- One row of `llm_pattern_cache`. -/
structure PatternRow where
  domain : String
  page_signature : String
  selectors : Selectors
  verified_at : Rat
  deriving DecidableEq, Repr

/-- `get_cached_selectors`. -/
def get_cached_selectors (store : List PatternRow) (domain page_signature : String) :
    Option Selectors :=
  match store.find? (fun r => r.domain == domain && r.page_signature == page_signature) with
  | some r => some r.selectors
  | none => none

/-- `save_cached_selectors`: insert, or on the unique-key conflict replace
`selectors` and `verified_at`. -/
def save_cached_selectors (store : List PatternRow) (domain page_signature : String)
    (selectors : Selectors) (now : Rat) : List PatternRow :=
  if (store.find? (fun r => r.domain == domain && r.page_signature == page_signature)).isSome then
    store.map fun r =>
      if r.domain == domain && r.page_signature == page_signature then
        { r with selectors := selectors, verified_at := now }
      else r
  else store ++ [⟨domain, page_signature, selectors, now⟩]

/-- The in-place enrichment the cache-hit path applies to each job. -/
def enrichJob (keyword domain : String) (j : Job) : Job :=
  { j with search_keyword := some keyword, source_site := some domain }

/-- `CachedLLMExtractor.extract`: returns the jobs, the cache after the
call, and whether the LLM was invoked. -/
def CachedLLMExtractor.extract
    (llm : Dom → String → String → List Job × Option Selectors) (now : Rat)
    (store : List PatternRow) (dom : Dom) (page_url keyword : String) :
    List Job × List PatternRow × Bool :=
  let domain := urlNetloc page_url
  let page_sig := compute_page_signature dom
  let fallback : List Job × List PatternRow × Bool :=
    let planned := llm dom page_url keyword
    match planned.2 with
    | some sels => (planned.1, save_cached_selectors store domain page_sig sels now, true)
    | none => (planned.1, store, true)
  match get_cached_selectors store domain page_sig with
  | some cached =>
      let jobs := extract_with_selectors dom cached page_url
      if jobs.isEmpty then fallback
      else (jobs.map (enrichJob keyword domain), store, false)
  | none => fallback

/-! ### Upsert — `crawler/db/queries.py`

The `job_postings` table, unique on `source_url`, becomes a list of rows.
`datetime.now(timezone.utc)` and the server-side `func.now()` defaults
become the explicit `now` argument; the `ON CONFLICT DO UPDATE ... WHERE`
statement becomes the corresponding conditional update, and the
`rowcount`-then-requery logic of the source is kept as written. -/

/-- `compute_content_hash`: SHA-256 hex of `title|company|description`,
with a falsy description coalesced to the empty string. -/
def compute_content_hash (description : Option String) (title company : String) : String :=
  sha256Hex (strBytes (title ++ "|" ++ company ++ "|" ++ description.getD ""))

/-- A job dict as passed to the upsert; keys the caller may omit are
`Option`s. `content_hash` is absent until the upsert writes it. -/
structure JobDict where
  source_url : String
  source_site : Option String
  search_keyword : Option String
  title : Option String
  company : Option String
  location : Option String
  salary_range : Option String
  description : Option String
  posted_date : Option String
  content_hash : Option String
  deriving DecidableEq, Repr

/-- One row of `job_postings`. -/
structure JobRow where
  source_url : String
  source_site : Option String
  search_keyword : Option String
  title : Option String
  company : Option String
  location : Option String
  salary_range : Option String
  description : Option String
  posted_date : Option String
  content_hash : String
  crawled_at : Rat
  updated_at : Rat
  deriving DecidableEq, Repr

/-- The row created by the insert arm: dict values plus the `func.now()`
server defaults for both timestamps. -/
def rowOfInsert (job : JobDict) (content_hash : String) (now : Rat) : JobRow :=
  ⟨job.source_url, job.source_site, job.search_keyword, job.title, job.company,
   job.location, job.salary_range, job.description, job.posted_date, content_hash,
   now, now⟩

/-- The `set_` clause of the conflict update: content-bearing fields,
`search_keyword` and `updated_at`; `source_site` and `crawled_at` keep their
stored values. -/
def rowOfUpdate (r : JobRow) (job : JobDict) (content_hash : String) (now : Rat) : JobRow :=
  { r with title := job.title, company := job.company, location := job.location,
           salary_range := job.salary_range, description := job.description,
           posted_date := job.posted_date, content_hash := content_hash,
           search_keyword := job.search_keyword, updated_at := now }

/-- `upsert_job_posting`: returns the reported status, the store after the
call, and the (mutated) job dict of the caller. -/
def upsert_job_posting (now : Rat) (store : List JobRow) (job_data : JobDict) :
    String × List JobRow × JobDict :=
  let content_hash := compute_content_hash job_data.description
    (job_data.title.getD "") (job_data.company.getD "")
  let job1 := { job_data with content_hash := some content_hash }
  match store.find? (fun r => r.source_url == job_data.source_url) with
  | none =>
      let store1 := store ++ [rowOfInsert job1 content_hash now]
      let status :=
        match store1.find? (fun r => r.source_url == job_data.source_url) with
        | some r => if r.crawled_at == r.updated_at then "new" else "updated"
        | none => "updated"
      (status, store1, job1)
  | some r =>
      if r.content_hash == content_hash then ("unchanged", store, job1)
      else
        let store1 := store.map fun row =>
          if row.source_url == job_data.source_url then rowOfUpdate row job1 content_hash now
          else row
        let status :=
          match store1.find? (fun row => row.source_url == job_data.source_url) with
          | some row => if row.crawled_at == row.updated_at then "new" else "updated"
          | none => "updated"
        (status, store1, job1)

/-! ### Reachable circuit-breaker states -/

/-- States of a `CircuitBreaker` reachable from construction through its
public operations, polled and notified at arbitrary instants. -/
inductive CircuitReachable : CircuitBreaker → Prop where
  | init : ∀ threshold cooldown, CircuitReachable (CircuitBreaker.init threshold cooldown)
  | poll : ∀ cb now d, CircuitReachable cb → CircuitReachable (cb.is_open now d).2
  | success : ∀ cb d, CircuitReachable cb → CircuitReachable (cb.record_success d)
  | failure : ∀ cb now d, CircuitReachable cb → CircuitReachable (cb.record_failure now d)

/-! ### Concrete states used by witnesses and counterexamples -/

/-- A breaker with threshold 1 whose circuit for domain `d` opened at instant 0. -/
def cbC1 : CircuitBreaker :=
  ⟨1, 300, fun _ => 1, fun x => if x = "d" then some (0 : Rat) else none⟩

/-- A breaker with the default threshold 5 whose circuit for `d` opened at instant 0. -/
def cbC1x : CircuitBreaker :=
  ⟨5, 300, fun _ => 5, fun x => if x = "d" then some (0 : Rat) else none⟩

/-- A reachable breaker (threshold 1) whose circuit for `d` opened at instant 0. -/
def cbC8 : CircuitBreaker := (CircuitBreaker.init 1 300).record_failure 0 "d"

/-- A freshly constructed fetcher with the default settings. -/
def freshFetcher : StealthFetcher := ⟨AdaptiveDelay.init 2 7, CircuitBreaker.init 5 300⟩

/-- Does this event notify `AdaptiveDelay.report_error`? -/
def GovEvent.isDelayError : GovEvent → Bool
  | .delayReportError _ _ => true
  | _ => false

/-- Does this event notify `CircuitBreaker.record_failure`? -/
def GovEvent.isCircuitFailure : GovEvent → Bool
  | .circuitRecordFailure _ => true
  | _ => false

/-- The content hash `upsert_job_posting` computes for a job dict. -/
def jobContentHash (job : JobDict) : String :=
  compute_content_hash job.description (job.title.getD "") (job.company.getD "")

/-- A stored posting whose `content_hash` column does not reflect any real
hash, crawled and last updated at instant 100. -/
def rowC5 : JobRow :=
  ⟨"https://j.example/1", none, none, some "Old", some "Co", none, none, some "old",
   none, "stale", 100, 100⟩

/-- An incoming job for the same `source_url` with different content. -/
def jobC5 : JobDict :=
  ⟨"https://j.example/1", none, none, some "New", some "Co", none, none, some "new desc",
   none, none⟩

/-- Modelled from the spec: the `source_url` resolution rule says "if
anchor href is absolute, use as-is". Following the spec example
`https://other/xyz`, a URL counts as absolute when a nonempty scheme is
followed by `://`. -/
def isAbsoluteUrl (url : String) : Bool :=
  match breakOnAux "://".data url.data with
  | some (pre, _) => !pre.isEmpty
  | none => false

/-- A title element answered by the witness card. -/
def elemTitleC6 : Elem := ⟨"AI Engineer", []⟩

/-- An anchor element with a root-relative href. -/
def elemUrlC6 : Elem := ⟨"", [("href", "/jobs/123")]⟩

/-- A job card answering the title and url selectors of the witness plan. -/
def cardC6 : Card :=
  ⟨fun s =>
    if s = ".job-title" then some elemTitleC6
    else if s = ".job-title a" then some elemUrlC6
    else none⟩

/-- A page with a single job card under the `.job-card` selector. -/
def domC6 : Dom := ⟨[], fun s => if s = ".job-card" then some [cardC6] else none⟩

/-- The witness selector plan. -/
def selC6 : Selectors :=
  ⟨some ".job-card", some ".job-title", none, none, some ".job-title a", none⟩

/-- The job the witness extraction emits. -/
def jobC6w : Job :=
  ⟨"AI Engineer", "example.com", none, none, "", "https://example.com/jobs/123",
   none, none, none⟩

/-- An anchor whose href starts with `http` without being an absolute URL. -/
def elemUrlC6x : Elem := ⟨"", [("href", "httpx/page")]⟩

/-- A card answering the counterexample selectors. -/
def cardC6x : Card :=
  ⟨fun s =>
    if s = ".t" then some ⟨"Role", []⟩
    else if s = ".u" then some elemUrlC6x
    else none⟩

/-- A page with a single card under the `.card` selector. -/
def domC6x : Dom := ⟨[], fun s => if s = ".card" then some [cardC6x] else none⟩

/-- The counterexample selector plan. -/
def selC6x : Selectors := ⟨some ".card", some ".t", none, none, some ".u", none⟩

/-- The job the counterexample extraction emits: its `source_url` is the
relative href `httpx/page`, not the empty string. -/
def jobC6x : Job := ⟨"Role", "example.com", none, none, "", "httpx/page", none, none, none⟩

/-- A page whose first elements carry classes `b a` and some text. -/
def domC7a : Dom :=
  ⟨[⟨"div", ["b", "a"], "text one"⟩, ⟨"span", [], "x"⟩], fun _ => none⟩

/-- The same structure with permuted class tokens and different text. -/
def domC7b : Dom :=
  ⟨[⟨"div", ["a", "b"], "other text"⟩, ⟨"span", [], "y"⟩], fun _ => none⟩

/-! ## Theorems -/

/-- Sorting with `insertionSort` under the linear order on strings is
invariant under permutation of the input, the key fact behind the
class-token-order invariance of the page signature. -/
theorem insertionSort_eq_of_perm {l1 l2 : List String} (h : l1.Perm l2) :
    List.insertionSort (· ≤ ·) l1 = List.insertionSort (· ≤ ·) l2 :=
  List.eq_of_perm_of_sorted
    (((List.perm_insertionSort _ l1).trans h).trans (List.perm_insertionSort _ l2).symm)
    (List.sorted_insertionSort _ l1) (List.sorted_insertionSort _ l2)

/-- C10: a missing (`None`) description is coalesced to the empty string
before hashing, so `compute_content_hash None t c` and
`compute_content_hash "" t c` agree for every title and company. -/
theorem c10_hash_of_none_description_eq_hash_of_empty (title company : String) :
    compute_content_hash none title company = compute_content_hash (some "") title company :=
  rfl

/-- C9: `upsert_job_posting` hands the mutated job dict back to the caller
with the computed content hash written under `content_hash` and every other
key unchanged, on every path through the function. -/
theorem c9_upsert_mutates_only_content_hash (now : Rat) (store : List JobRow) (job : JobDict) :
    (upsert_job_posting now store job).2.2 =
      { job with content_hash := some (compute_content_hash job.description
          (job.title.getD "") (job.company.getD "")) } := by
  unfold upsert_job_posting
  dsimp only
  split
  · rfl
  · split
    · rfl
    · rfl

/-- C1 (amended): after the open → half-open poll (which clears `open_since`,
zeroes the failure counter and returns `false`), a single `record_failure`
reopens the circuit only when one failure already meets the threshold: with
`threshold ≤ 1` (and a positive cooldown) `is_open` returns `true` and
`get_status` returns `"open"` immediately after the failure, while with
`threshold > 1` the circuit stays closed. -/
theorem c1_half_open_then_single_failure (cb : CircuitBreaker) (d : String)
    (t now1 now2 : Rat) (hopen : cb.open_since d = some t)
    (hcool : cb.cooldown ≤ now1 - t) (hpos : 0 < cb.cooldown) :
    (cb.is_open now1 d).1 = false ∧
    (cb.is_open now1 d).2.failure_counts d = 0 ∧
    (cb.is_open now1 d).2.open_since d = none ∧
    (cb.threshold ≤ 1 →
      (((cb.is_open now1 d).2.record_failure now2 d).is_open now2 d).1 = true ∧
      ((cb.is_open now1 d).2.record_failure now2 d).get_status now2 d = "open") ∧
    (1 < cb.threshold →
      ((cb.is_open now1 d).2.record_failure now2 d).open_since d = none ∧
      (((cb.is_open now1 d).2.record_failure now2 d).is_open now2 d).1 = false ∧
      ((cb.is_open now1 d).2.record_failure now2 d).get_status now2 d = "closed") := by
  have hzero : ¬ cb.cooldown ≤ (0 : Rat) := not_le.mpr hpos
  have h1 : cb.is_open now1 d =
      (false, { cb with open_since := updateMap cb.open_since d none,
                        failure_counts := updateMap cb.failure_counts d 0 }) := by
    unfold CircuitBreaker.is_open
    rw [hopen]
    simp [hcool]
  rw [h1]
  refine ⟨rfl, by simp [updateMap], by simp [updateMap], ?_, ?_⟩
  · intro hth
    have hfc : updateMap cb.failure_counts d 0 d + 1 = 1 := by simp [updateMap]
    constructor
    · unfold CircuitBreaker.record_failure
      dsimp only
      rw [hfc, if_pos hth]
      unfold CircuitBreaker.is_open
      simp [updateMap, sub_self, hzero]
    · unfold CircuitBreaker.record_failure
      dsimp only
      rw [hfc, if_pos hth]
      unfold CircuitBreaker.get_status
      simp [updateMap, sub_self, hzero]
  · intro hth
    have hnth : ¬ cb.threshold ≤ updateMap cb.failure_counts d 0 d + 1 := by
      simp [updateMap]
      omega
    unfold CircuitBreaker.record_failure
    dsimp only
    rw [if_neg hnth]
    refine ⟨by simp [updateMap], ?_, ?_⟩
    · unfold CircuitBreaker.is_open
      simp [updateMap]
    · unfold CircuitBreaker.get_status
      simp [updateMap]

/-- Witness for C1: the amended theorem applied to a threshold-1 breaker
whose circuit for `d` opened at instant 0, polled and failed at instant 300. -/
theorem c1_witness :
    cbC1.open_since "d" = some 0 ∧ cbC1.cooldown ≤ 300 - 0 ∧ (0 : Rat) < cbC1.cooldown ∧
    ((cbC1.is_open 300 "d").1 = false ∧
     (cbC1.is_open 300 "d").2.failure_counts "d" = 0 ∧
     (cbC1.is_open 300 "d").2.open_since "d" = none ∧
     (cbC1.threshold ≤ 1 →
       (((cbC1.is_open 300 "d").2.record_failure 300 "d").is_open 300 "d").1 = true ∧
       ((cbC1.is_open 300 "d").2.record_failure 300 "d").get_status 300 "d" = "open") ∧
     (1 < cbC1.threshold →
       ((cbC1.is_open 300 "d").2.record_failure 300 "d").open_since "d" = none ∧
       (((cbC1.is_open 300 "d").2.record_failure 300 "d").is_open 300 "d").1 = false ∧
       ((cbC1.is_open 300 "d").2.record_failure 300 "d").get_status 300 "d" = "closed")) :=
  ⟨rfl, by norm_num [cbC1], by norm_num [cbC1],
   c1_half_open_then_single_failure cbC1 "d" 0 300 300 rfl (by norm_num [cbC1])
     (by norm_num [cbC1])⟩

/-- Counterexample to C1 as stated: with the default threshold 5, after the
half-open poll at instant 300 a single `record_failure` leaves the circuit
closed — `is_open` returns `false` and `get_status` returns `"closed"`, not
`"open"`. -/
theorem c1_counterexample :
    (cbC1x.is_open 300 "d").1 = false ∧
    (((cbC1x.is_open 300 "d").2.record_failure 300 "d").is_open 300 "d").1 = false ∧
    ((cbC1x.is_open 300 "d").2.record_failure 300 "d").get_status 300 "d" = "closed" := by
  norm_num [cbC1x, CircuitBreaker.is_open, CircuitBreaker.record_failure,
    CircuitBreaker.get_status, updateMap]

/-- In every reachable breaker state, a domain whose circuit is marked open
has a failure count at or above the threshold. -/
theorem circuit_open_implies_threshold {cb : CircuitBreaker}
    (h : CircuitReachable cb) :
    ∀ d t, cb.open_since d = some t → cb.threshold ≤ cb.failure_counts d := by
  induction h with
  | init threshold cooldown =>
      intro d t hd
      simp [CircuitBreaker.init] at hd
  | poll cb now d0 hr ih =>
      intro d t
      unfold CircuitBreaker.is_open
      cases hcase : cb.open_since d0 with
      | none => exact ih d t
      | some t0 =>
          dsimp only
          by_cases hc : cb.cooldown ≤ now - t0
          · rw [if_pos hc]
            dsimp only
            intro hd
            by_cases hdd : d = d0
            · subst hdd
              simp [updateMap] at hd
            · simp only [updateMap, if_neg hdd] at hd ⊢
              exact ih d t hd
          · rw [if_neg hc]
            exact ih d t
  | success cb d0 hr ih =>
      intro d t
      unfold CircuitBreaker.record_success
      intro hd
      by_cases hdd : d = d0
      · subst hdd
        simp [updateMap] at hd
      · simp only [updateMap, if_neg hdd] at hd ⊢
        exact ih d t hd
  | failure cb now d0 hr ih =>
      intro d t
      unfold CircuitBreaker.record_failure
      dsimp only
      by_cases hth : cb.threshold ≤ cb.failure_counts d0 + 1
      · rw [if_pos hth]
        intro hd
        by_cases hdd : d = d0
        · subst hdd
          simpa [updateMap] using hth
        · simp only [updateMap, if_neg hdd] at hd ⊢
          exact ih d t hd
      · rw [if_neg hth]
        intro hd
        by_cases hdd : d = d0
        · subst hdd
          simp only [updateMap, if_pos rfl]
          exact le_trans (ih d t hd) (Nat.le_succ _)
        · simp only [updateMap, if_neg hdd]
          exact ih d t hd

/-- C8: calling `record_failure` on a reachable state whose circuit for `d`
is marked open resets `open_since d` to the current instant, so a later
`is_open` poll can only answer `false` once a full cooldown has elapsed
after this most recent failure. -/
theorem c8_failure_while_open_resets_cooldown (cb : CircuitBreaker) (d : String)
    (t now nowLater : Rat) (hreach : CircuitReachable cb)
    (hopen : cb.open_since d = some t) :
    (cb.record_failure now d).open_since d = some now ∧
    (((cb.record_failure now d).is_open nowLater d).1 = false →
      cb.cooldown ≤ nowLater - now) := by
  have hth : cb.threshold ≤ cb.failure_counts d + 1 :=
    le_trans (circuit_open_implies_threshold hreach d t hopen) (Nat.le_succ _)
  have hset : (cb.record_failure now d).open_since d = some now := by
    unfold CircuitBreaker.record_failure
    dsimp only
    rw [if_pos hth]
    simp [updateMap]
  have hcd : (cb.record_failure now d).cooldown = cb.cooldown := by
    unfold CircuitBreaker.record_failure
    dsimp only
    split <;> rfl
  refine ⟨hset, ?_⟩
  unfold CircuitBreaker.is_open
  rw [hset, hcd]
  dsimp only
  by_cases hc : cb.cooldown ≤ nowLater - now
  · intro _
    exact hc
  · rw [if_neg hc]
    intro hfalse
    exact absurd hfalse (by simp)

/-- Witness for C8: the theorem applied to the reachable open state `cbC8`,
failed again at instant 5 and polled at instant 400. -/
theorem c8_witness :
    cbC8.open_since "d" = some 0 ∧
    ((cbC8.record_failure 5 "d").open_since "d" = some 5 ∧
     (((cbC8.record_failure 5 "d").is_open 400 "d").1 = false →
       cbC8.cooldown ≤ 400 - 5)) :=
  ⟨rfl, c8_failure_while_open_resets_cooldown cbC8 "d" 0 5 400
    (CircuitReachable.failure _ 0 "d" (CircuitReachable.init 1 300)) rfl⟩

/-- C2 (amended): when the circuit check passes, a static-mode response with
status ≥ 400 yields `null` and exactly one `record_failure`; in JS-render
mode only 429 and 503 do so, while any other status — including other
statuses ≥ 400 — takes the success path and returns the page HTML. -/
theorem c2_fetch_status_ge_400 (st : StealthFetcher) (now : Rat) (url : String)
    (status : Nat) (body : String)
    (hnotopen : (st.circuit.is_open now (StealthFetcher.get_domain url)).1 = false) :
    (400 ≤ status →
      (st.fetch now url (.static (.response status body))).1 = none ∧
      ((st.fetch now url (.static (.response status body))).2.2.count
        (GovEvent.circuitRecordFailure (StealthFetcher.get_domain url))) = 1) ∧
    ((status = 429 ∨ status = 503) →
      (st.fetch now url (.js (.response status body))).1 = none ∧
      ((st.fetch now url (.js (.response status body))).2.2.count
        (GovEvent.circuitRecordFailure (StealthFetcher.get_domain url))) = 1) ∧
    (400 ≤ status → ¬(status = 429 ∨ status = 503) →
      (st.fetch now url (.js (.response status body))).1 = some body ∧
      (st.fetch now url (.js (.response status body))).2.2 =
        [GovEvent.delayReportSuccess (StealthFetcher.get_domain url),
         GovEvent.circuitRecordSuccess (StealthFetcher.get_domain url)]) := by
  have hopen2 : ¬ (st.circuit.is_open now (StealthFetcher.get_domain url)).1 = true := by
    simp [hnotopen]
  refine ⟨?_, ?_, ?_⟩
  · intro h400
    simp only [StealthFetcher.fetch]
    unfold StealthFetcher.fetch_static
    dsimp only
    rw [if_neg hopen2]
    by_cases h43 : status = 429 ∨ status = 503
    · rw [if_pos h43]
      exact ⟨rfl, by simp⟩
    · rw [if_neg h43, if_pos h400]
      exact ⟨rfl, by simp⟩
  · intro h43
    simp only [StealthFetcher.fetch]
    unfold StealthFetcher.fetch_js
    dsimp only
    rw [if_neg hopen2, if_pos h43]
    exact ⟨rfl, by simp⟩
  · intro _ h43
    simp only [StealthFetcher.fetch]
    unfold StealthFetcher.fetch_js
    dsimp only
    rw [if_neg hopen2, if_neg h43]
    exact ⟨rfl, rfl⟩

/-- Witness for C2: the amended theorem applied to a fresh fetcher, the URL
`https://a.example/x` and status 404. -/
theorem c2_witness :
    (freshFetcher.circuit.is_open 0 (StealthFetcher.get_domain "https://a.example/x")).1
      = false ∧
    ((400 ≤ 404 →
      (freshFetcher.fetch 0 "https://a.example/x" (.static (.response 404 "nf"))).1 = none ∧
      ((freshFetcher.fetch 0 "https://a.example/x" (.static (.response 404 "nf"))).2.2.count
        (GovEvent.circuitRecordFailure (StealthFetcher.get_domain "https://a.example/x"))) = 1) ∧
    ((404 = 429 ∨ 404 = 503) →
      (freshFetcher.fetch 0 "https://a.example/x" (.js (.response 404 "nf"))).1 = none ∧
      ((freshFetcher.fetch 0 "https://a.example/x" (.js (.response 404 "nf"))).2.2.count
        (GovEvent.circuitRecordFailure (StealthFetcher.get_domain "https://a.example/x"))) = 1) ∧
    (400 ≤ 404 → ¬(404 = 429 ∨ 404 = 503) →
      (freshFetcher.fetch 0 "https://a.example/x" (.js (.response 404 "nf"))).1 = some "nf" ∧
      (freshFetcher.fetch 0 "https://a.example/x" (.js (.response 404 "nf"))).2.2 =
        [GovEvent.delayReportSuccess (StealthFetcher.get_domain "https://a.example/x"),
         GovEvent.circuitRecordSuccess (StealthFetcher.get_domain "https://a.example/x")])) :=
  ⟨rfl, c2_fetch_status_ge_400 freshFetcher 0 "https://a.example/x" 404 "nf" rfl⟩

/-- Counterexample to C2 as stated: in JS-render mode a 404 response does
not return `null` and records no circuit failure — the fetch returns the
page body and notifies only the success hooks. -/
theorem c2_counterexample :
    (freshFetcher.fetch 0 "https://a.example/x" (.js (.response 404 "<h1>nf</h1>"))).1 =
      some "<h1>nf</h1>" ∧
    ((freshFetcher.fetch 0 "https://a.example/x"
        (.js (.response 404 "<h1>nf</h1>"))).2.2.filter GovEvent.isCircuitFailure) = [] :=
  ⟨rfl, rfl⟩

/-- C3 (amended): when the circuit check passes and the response status is
429 or 503, both governors are notified exactly once, the status being
passed to the delay, in both render modes; for any other status ≥ 400 the
static path notifies only `circuit.record_failure` (exactly once, with no
`report_error` at all), and the JS path notifies neither failure hook. -/
theorem c3_both_governors_on_error (st : StealthFetcher) (now : Rat) (url : String)
    (status : Nat) (body : String)
    (hnotopen : (st.circuit.is_open now (StealthFetcher.get_domain url)).1 = false) :
    ((status = 429 ∨ status = 503) →
      ((st.fetch_static now url (.response status body)).2.2.count
        (GovEvent.delayReportError (StealthFetcher.get_domain url) (some status))) = 1 ∧
      ((st.fetch_static now url (.response status body)).2.2.count
        (GovEvent.circuitRecordFailure (StealthFetcher.get_domain url))) = 1 ∧
      ((st.fetch_js now url (.response status body)).2.2.count
        (GovEvent.delayReportError (StealthFetcher.get_domain url) (some status))) = 1 ∧
      ((st.fetch_js now url (.response status body)).2.2.count
        (GovEvent.circuitRecordFailure (StealthFetcher.get_domain url))) = 1) ∧
    (400 ≤ status → ¬(status = 429 ∨ status = 503) →
      (st.fetch_static now url (.response status body)).2.2 =
        [GovEvent.circuitRecordFailure (StealthFetcher.get_domain url)] ∧
      ((st.fetch_static now url (.response status body)).2.2.filter
        GovEvent.isDelayError) = [] ∧
      ((st.fetch_js now url (.response status body)).2.2.filter
        (fun e => e.isDelayError || e.isCircuitFailure)) = []) := by
  have hopen2 : ¬ (st.circuit.is_open now (StealthFetcher.get_domain url)).1 = true := by
    simp [hnotopen]
  constructor
  · intro h43
    unfold StealthFetcher.fetch_static StealthFetcher.fetch_js
    dsimp only
    rw [if_neg hopen2, if_neg hopen2, if_pos h43, if_pos h43]
    refine ⟨by simp, by simp, by simp, by simp⟩
  · intro h400 h43
    unfold StealthFetcher.fetch_static StealthFetcher.fetch_js
    dsimp only
    rw [if_neg hopen2, if_neg hopen2, if_neg h43, if_neg h43, if_pos h400]
    refine ⟨rfl, rfl, rfl⟩

/-- Witness for C3: the amended theorem applied to a fresh fetcher, the URL
`https://b.example/y` and status 503. -/
theorem c3_witness :
    (freshFetcher.circuit.is_open 0 (StealthFetcher.get_domain "https://b.example/y")).1
      = false ∧
    (((503 = 429 ∨ 503 = 503) →
      ((freshFetcher.fetch_static 0 "https://b.example/y" (.response 503 "r")).2.2.count
        (GovEvent.delayReportError (StealthFetcher.get_domain "https://b.example/y")
          (some 503))) = 1 ∧
      ((freshFetcher.fetch_static 0 "https://b.example/y" (.response 503 "r")).2.2.count
        (GovEvent.circuitRecordFailure (StealthFetcher.get_domain "https://b.example/y"))) = 1 ∧
      ((freshFetcher.fetch_js 0 "https://b.example/y" (.response 503 "r")).2.2.count
        (GovEvent.delayReportError (StealthFetcher.get_domain "https://b.example/y")
          (some 503))) = 1 ∧
      ((freshFetcher.fetch_js 0 "https://b.example/y" (.response 503 "r")).2.2.count
        (GovEvent.circuitRecordFailure (StealthFetcher.get_domain "https://b.example/y"))) = 1) ∧
    (400 ≤ 503 → ¬(503 = 429 ∨ 503 = 503) →
      (freshFetcher.fetch_static 0 "https://b.example/y" (.response 503 "r")).2.2 =
        [GovEvent.circuitRecordFailure (StealthFetcher.get_domain "https://b.example/y")] ∧
      ((freshFetcher.fetch_static 0 "https://b.example/y" (.response 503 "r")).2.2.filter
        GovEvent.isDelayError) = [] ∧
      ((freshFetcher.fetch_js 0 "https://b.example/y" (.response 503 "r")).2.2.filter
        (fun e => e.isDelayError || e.isCircuitFailure)) = [])) :=
  ⟨rfl, c3_both_governors_on_error freshFetcher 0 "https://b.example/y" 503 "r" rfl⟩

/-- Counterexample to C3 as stated: a static-mode 404 response notifies only
the circuit breaker; `delay.report_error` is invoked zero times, not once. -/
theorem c3_counterexample :
    (freshFetcher.fetch_static 0 "https://b.example/y" (.response 404 "err")).2.2 =
      [GovEvent.circuitRecordFailure "b.example"] ∧
    ((freshFetcher.fetch_static 0 "https://b.example/y" (.response 404 "err")).2.2.count
      (GovEvent.delayReportError "b.example" (some 404))) = 0 :=
  ⟨rfl, rfl⟩

/-- A 32-bit word renders as exactly 8 hex characters. -/
theorem toHex32_length (x : Nat) : (toHex32 x).length = 8 := rfl

/-- A SHA-256 hex digest has exactly 64 characters. -/
theorem sha256Hex_length (msg : List Nat) : (sha256Hex msg).length = 64 := by
  unfold sha256Hex
  dsimp only
  simp [String.length_append, toHex32_length]

/-- `compute_content_hash` always returns a 64-character digest. -/
theorem compute_content_hash_length (d : Option String) (t c : String) :
    (compute_content_hash d t c).length = 64 :=
  sha256Hex_length _

/-- `find?` skips a prefix in which it finds nothing. -/
theorem find?_append_of_none {α : Type} (p : α → Bool) (l1 l2 : List α)
    (h : l1.find? p = none) : (l1 ++ l2).find? p = l2.find? p := by
  induction l1 with
  | nil => simp
  | cons a l ih =>
      by_cases ha : p a = true
      · rw [List.find?_cons_of_pos _ ha] at h
        exact absurd h (by simp)
      · rw [List.find?_cons_of_neg _ ha] at h
        rw [List.cons_append, List.find?_cons_of_neg _ ha]
        exact ih h

/-- The keyed update map of the upsert rewrites exactly the first row
`find?` locates for the key. -/
theorem upsert_find?_map (job1 : JobDict) (ch : String) (now : Rat) (url : String) :
    ∀ (l : List JobRow) (row : JobRow),
      l.find? (fun r => r.source_url == url) = some row →
      (l.map fun r => if r.source_url == url then rowOfUpdate r job1 ch now else r).find?
        (fun r => r.source_url == url) = some (rowOfUpdate row job1 ch now) := by
  intro l
  induction l with
  | nil =>
      intro row h
      simp at h
  | cons a l ih =>
      intro row h
      by_cases ha : (a.source_url == url) = true
      · rw [@List.find?_cons_of_pos _ (fun r => r.source_url == url) a l ha] at h
        injection h with h2
        subst h2
        have hb : ((rowOfUpdate a job1 ch now).source_url == url) = true := ha
        show List.find? _ (List.map _ (a :: l)) = _
        rw [List.map_cons]
        show List.find? _ ((if (a.source_url == url) = true then
          rowOfUpdate a job1 ch now else a) :: _) = _
        rw [if_pos ha]
        exact List.find?_cons_of_pos _ hb
      · rw [@List.find?_cons_of_neg _ (fun r => r.source_url == url) a l ha] at h
        show List.find? _ (List.map _ (a :: l)) = _
        rw [List.map_cons]
        show List.find? _ ((if (a.source_url == url) = true then
          rowOfUpdate a job1 ch now else a) :: _) = _
        rw [if_neg ha]
        rw [@List.find?_cons_of_neg _ (fun r => r.source_url == url) a _ ha]
        exact ih row h

/-- C5 (amended): the upsert keyed by `source_url` inserts and reports
`"new"` when no row exists (with equal timestamps on insert); performs no
write and reports `"unchanged"` when the stored hash equals the computed
one; otherwise updates the content-bearing fields and `updated_at` and
reports `"updated"` — provided the update instant differs from the stored
`crawled_at` (when they coincide the source misreports the update as
`"new"`). -/
theorem c5_upsert_status_semantics (now : Rat) (store : List JobRow) (job : JobDict) :
    (store.find? (fun r => r.source_url == job.source_url) = none →
      (upsert_job_posting now store job).1 = "new" ∧
      (upsert_job_posting now store job).2.1 =
        store ++ [rowOfInsert { job with content_hash := some (jobContentHash job) }
          (jobContentHash job) now] ∧
      (rowOfInsert { job with content_hash := some (jobContentHash job) }
        (jobContentHash job) now).updated_at =
        (rowOfInsert { job with content_hash := some (jobContentHash job) }
          (jobContentHash job) now).crawled_at) ∧
    (∀ row, store.find? (fun r => r.source_url == job.source_url) = some row →
      row.content_hash = jobContentHash job →
      (upsert_job_posting now store job).1 = "unchanged" ∧
      (upsert_job_posting now store job).2.1 = store) ∧
    (∀ row, store.find? (fun r => r.source_url == job.source_url) = some row →
      row.content_hash ≠ jobContentHash job → row.crawled_at ≠ now →
      (upsert_job_posting now store job).1 = "updated" ∧
      (upsert_job_posting now store job).2.1 = store.map (fun r =>
        if r.source_url == job.source_url then
          rowOfUpdate r { job with content_hash := some (jobContentHash job) }
            (jobContentHash job) now
        else r)) := by
  simp only [jobContentHash]
  refine ⟨?_, ?_, ?_⟩
  · intro hnone
    unfold upsert_job_posting
    dsimp only
    rw [hnone]
    dsimp only
    rw [find?_append_of_none _ _ _ hnone]
    rw [List.find?_cons_of_pos]
    · exact ⟨by simp [rowOfInsert], rfl, rfl⟩
    · show ((rowOfInsert _ _ now).source_url == job.source_url) = true
      simp [rowOfInsert]
  · intro row hfind hhash
    unfold upsert_job_posting
    dsimp only
    rw [hfind]
    dsimp only
    rw [if_pos (by simp [hhash])]
    exact ⟨rfl, rfl⟩
  · intro row hfind hhash hcr
    unfold upsert_job_posting
    dsimp only
    rw [hfind]
    dsimp only
    rw [if_neg (by simp [hhash])]
    rw [upsert_find?_map _ _ _ _ store row hfind]
    dsimp only
    rw [if_neg (show ¬ (((rowOfUpdate row _ _ now).crawled_at ==
      (rowOfUpdate row _ _ now).updated_at) = true) from by simp [rowOfUpdate, hcr])]
    exact ⟨rfl, rfl⟩

/-- Counterexample to C5 as stated: a row exists for the `source_url` with a
differing stored hash, the update is performed, yet the function reports
`"new"` rather than `"updated"`, because the update instant 100 coincides
with the stored `crawled_at`. -/
theorem c5_counterexample :
    (upsert_job_posting 100 [rowC5] jobC5).1 = "new" ∧
    [rowC5].find? (fun r => r.source_url == jobC5.source_url) = some rowC5 ∧
    rowC5.content_hash ≠ jobContentHash jobC5 ∧
    (upsert_job_posting 100 [rowC5] jobC5).2.1 =
      [rowOfUpdate rowC5 { jobC5 with content_hash := some (jobContentHash jobC5) }
        (jobContentHash jobC5) 100] := by
  have hne : rowC5.content_hash ≠ compute_content_hash jobC5.description
      (jobC5.title.getD "") (jobC5.company.getD "") := by
    intro h
    have hl := congrArg String.length h
    rw [compute_content_hash_length] at hl
    simp only [rowC5] at hl
    exact absurd hl (by decide)
  exact ⟨rfl, rfl, by simpa [jobContentHash] using hne, rfl⟩

/-- Witness for C5: the amended theorem applied to the empty store, where
the upsert inserts and reports `"new"` with equal timestamps. -/
theorem c5_witness :
    (upsert_job_posting 7 [] jobC5).1 = "new" ∧
    (upsert_job_posting 7 [] jobC5).2.1 =
      [] ++ [rowOfInsert { jobC5 with content_hash := some (jobContentHash jobC5) }
        (jobContentHash jobC5) 7] ∧
    (rowOfInsert { jobC5 with content_hash := some (jobContentHash jobC5) }
      (jobContentHash jobC5) 7).updated_at =
      (rowOfInsert { jobC5 with content_hash := some (jobContentHash jobC5) }
        (jobContentHash jobC5) 7).crawled_at :=
  (c5_upsert_status_semantics 7 [] jobC5).1 rfl

/-- C6 (amended): every job emitted for a card matched by
`job_list_selector` carries as `source_url` the anchor href unchanged when
the href starts with `http`; the scheme and host of `base_url` prepended
when it starts with `/`; and the empty string in every other case,
including when the url selector matches nothing. -/
theorem c6_source_url_resolution (dom : Dom) (sel : Selectors) (base_url : String)
    (cards : List Card) (card : Card) (j : Job)
    (hsl : dom.select (sel.job_list_selector.getD "") = some cards)
    (hmem : card ∈ cards)
    (hj : extractCard sel (urlNetloc base_url) base_url card = some j)
    (hne : sel.job_list_selector.getD "" ≠ "") :
    j ∈ extract_with_selectors dom sel base_url ∧
    j.source_url = (match safe_select_one card sel.url_selector with
      | none => ""
      | some e =>
          if strStartsWith (e.get "href" "") "http" then e.get "href" ""
          else if strStartsWith (e.get "href" "") "/" then
            urlScheme base_url ++ "://" ++ urlNetloc base_url ++ e.get "href" ""
          else "") := by
  constructor
  · unfold extract_with_selectors
    dsimp only
    rw [if_neg hne, hsl]
    dsimp only
    have hcne : ¬ cards.isEmpty = true := by
      cases cards with
      | nil => cases hmem
      | cons a l => simp
    rw [if_neg hcne]
    exact List.mem_filterMap.mpr ⟨card, hmem, hj⟩
  · unfold extractCard at hj
    dsimp only at hj
    by_cases ht : (match safe_select_one card sel.title_selector with
      | some e => e.textStripped
      | none => "") = ""
    · rw [if_pos ht] at hj
      exact absurd hj (by simp)
    · rw [if_neg ht] at hj
      injection hj with hj2
      subst hj2
      rfl

/-- Witness for C6: the amended theorem applied to a one-card page whose
anchor href is `/jobs/123`, extracted against
`base_url = https://example.com/careers`, matching the spec example. -/
theorem c6_witness :
    domC6.select (selC6.job_list_selector.getD "") = some [cardC6] ∧
    cardC6 ∈ [cardC6] ∧
    extractCard selC6 (urlNetloc "https://example.com/careers")
      "https://example.com/careers" cardC6 = some jobC6w ∧
    selC6.job_list_selector.getD "" ≠ "" ∧
    (jobC6w ∈ extract_with_selectors domC6 selC6 "https://example.com/careers" ∧
     jobC6w.source_url = (match safe_select_one cardC6 selC6.url_selector with
       | none => ""
       | some e =>
           if strStartsWith (e.get "href" "") "http" then e.get "href" ""
           else if strStartsWith (e.get "href" "") "/" then
             urlScheme "https://example.com/careers" ++ "://" ++
               urlNetloc "https://example.com/careers" ++ e.get "href" ""
           else "")) :=
  ⟨rfl, List.Mem.head _, rfl, by simp [selC6],
   c6_source_url_resolution domC6 selC6 "https://example.com/careers" [cardC6] cardC6
     jobC6w rfl (List.Mem.head _) rfl (by simp [selC6])⟩

/-- Counterexample to C6 as stated: an anchor href `httpx/page` is not an
absolute URL and does not start with `/`, so the claim requires an empty
`source_url`; the source keeps it verbatim because it merely starts with
the four characters `http`. -/
theorem c6_counterexample :
    extract_with_selectors domC6x selC6x "https://example.com/careers" = [jobC6x] ∧
    jobC6x.source_url = "httpx/page" ∧
    isAbsoluteUrl "httpx/page" = false ∧
    strStartsWith "httpx/page" "/" = false ∧
    jobC6x.source_url ≠ "" :=
  ⟨rfl, rfl, rfl, rfl, by simp [jobC6x]⟩

/-- C7: the page signature depends only on the tag names and the class
multisets of the first 200 elements — text content and class-token order
are irrelevant. -/
theorem c7_signature_structural_invariance (d1 d2 : Dom)
    (h : List.Forall₂ (fun a b => a.name = b.name ∧ a.classes.Perm b.classes)
      (d1.elements.take 200) (d2.elements.take 200)) :
    compute_page_signature d1 = compute_page_signature d2 := by
  unfold compute_page_signature
  dsimp only
  have hmap : ∀ (l1 l2 : List Element),
      List.Forall₂ (fun a b => a.name = b.name ∧ a.classes.Perm b.classes) l1 l2 →
      l1.map (fun tag => tag.name ++ ":" ++
        String.intercalate "." (List.insertionSort (· ≤ ·) tag.classes)) =
      l2.map (fun tag => tag.name ++ ":" ++
        String.intercalate "." (List.insertionSort (· ≤ ·) tag.classes)) := by
    intro l1 l2 hf
    induction hf with
    | nil => rfl
    | cons hab htail ih =>
        rw [List.map_cons, List.map_cons, ih, hab.1, insertionSort_eq_of_perm hab.2]
  rw [hmap _ _ h]

/-- Witness for C7: two two-element pages, identical tags, permuted class
tokens (`b a` vs `a b`) and different texts, hash to the same signature. -/
theorem c7_witness :
    List.Forall₂ (fun a b => a.name = b.name ∧ a.classes.Perm b.classes)
      (domC7a.elements.take 200) (domC7b.elements.take 200) ∧
    compute_page_signature domC7a = compute_page_signature domC7b :=
  let hp : List.Forall₂ (fun a b => a.name = b.name ∧ a.classes.Perm b.classes)
      (domC7a.elements.take 200) (domC7b.elements.take 200) :=
    List.Forall₂.cons ⟨rfl, List.Perm.swap "a" "b" []⟩
      (List.Forall₂.cons ⟨rfl, List.Perm.refl []⟩ List.Forall₂.nil)
  ⟨hp, c7_signature_structural_invariance domC7a domC7b hp⟩

/-- C4: the cache invokes the LLM exactly when no plan is cached for
`(domain, signature)` or the cached plan extracts zero jobs; a cache hit
with at least one job returns the jobs enriched with the keyword and the
domain without touching the LLM or the store; the fallback returns the LLM
jobs and upserts the plan exactly when one was returned. -/
theorem c4_cache_hit_vs_llm_fallback
    (llm : Dom → String → String → List Job × Option Selectors) (now : Rat)
    (store : List PatternRow) (dom : Dom) (page_url keyword : String) :
    ((CachedLLMExtractor.extract llm now store dom page_url keyword).2.2 = true ↔
      (get_cached_selectors store (urlNetloc page_url) (compute_page_signature dom) = none ∨
       ∃ plan, get_cached_selectors store (urlNetloc page_url) (compute_page_signature dom)
           = some plan ∧ extract_with_selectors dom plan page_url = [])) ∧
    (∀ plan, get_cached_selectors store (urlNetloc page_url) (compute_page_signature dom)
        = some plan →
      extract_with_selectors dom plan page_url ≠ [] →
      CachedLLMExtractor.extract llm now store dom page_url keyword =
        ((extract_with_selectors dom plan page_url).map
          (enrichJob keyword (urlNetloc page_url)), store, false)) ∧
    ((CachedLLMExtractor.extract llm now store dom page_url keyword).2.2 = true →
      (CachedLLMExtractor.extract llm now store dom page_url keyword).1 =
        (llm dom page_url keyword).1 ∧
      (CachedLLMExtractor.extract llm now store dom page_url keyword).2.1 =
        (match (llm dom page_url keyword).2 with
         | some sels => save_cached_selectors store (urlNetloc page_url)
             (compute_page_signature dom) sels now
         | none => store)) := by
  unfold CachedLLMExtractor.extract
  dsimp only
  cases hget : get_cached_selectors store (urlNetloc page_url) (compute_page_signature dom) with
  | none =>
      refine ⟨?_, ?_, ?_⟩
      · constructor
        · intro _
          exact Or.inl rfl
        · intro _
          cases hllm : (llm dom page_url keyword).2 <;> rfl
      · intro plan hplan
        exact absurd hplan (by simp)
      · intro _
        cases hllm : (llm dom page_url keyword).2 <;> exact ⟨rfl, rfl⟩
  | some cached =>
      dsimp only
      by_cases hemp : (extract_with_selectors dom cached page_url).isEmpty = true
      · rw [if_pos hemp]
        have hnil : extract_with_selectors dom cached page_url = [] := by
          simpa using hemp
        refine ⟨?_, ?_, ?_⟩
        · constructor
          · intro _
            exact Or.inr ⟨cached, rfl, hnil⟩
          · intro _
            cases hllm : (llm dom page_url keyword).2 <;> rfl
        · intro plan hplan hplanne
          injection hplan with hp2
          subst hp2
          exact absurd hnil hplanne
        · intro _
          cases hllm : (llm dom page_url keyword).2 <;> exact ⟨rfl, rfl⟩
      · rw [if_neg hemp]
        refine ⟨?_, ?_, ?_⟩
        · constructor
          · intro hh
            exact absurd hh (by simp)
          · intro hor
            rcases hor with hl | ⟨plan, hp, hext⟩
            · exact Option.noConfusion hl
            · injection hp with hp2
              subst hp2
              exact absurd (by simp [hext]) hemp
        · intro plan hplan hplanne
          injection hplan with hp2
          subst hp2
          rfl
        · intro hh
          exact absurd hh (by simp)

/-- Witness for C4: on an empty cache the extractor calls the LLM, returns
its jobs, and leaves the store untouched when no plan came back. -/
theorem c4_witness :
    (CachedLLMExtractor.extract (fun _ _ _ => ([jobC6x], none)) 0 [] domC6
      "https://e.example/p" "kw").1 = [jobC6x] ∧
    (CachedLLMExtractor.extract (fun _ _ _ => ([jobC6x], none)) 0 [] domC6
      "https://e.example/p" "kw").2.1 = [] := by
  have h := c4_cache_hit_vs_llm_fallback (fun _ _ _ => ([jobC6x], none)) 0 [] domC6
    "https://e.example/p" "kw"
  have hcall := h.1.mpr (Or.inl rfl)
  have h3 := h.2.2 hcall
  exact ⟨h3.1, by rw [h3.2]⟩

end Crawler
